import Mathlib

/-
Verification of the chat subsystem of the textroleplay repository.

The embedding follows `src/api.js` (the Express route registration and the
WebSocket message handler).  The storage layer (`storage.createMessage`,
`storage.getMessagesByRoom`, `storage.getCharacter`) and the zod schema
`insertMessageSchema` live outside the provided sources; those are modelled
from the specification, and each such definition is marked
"Modelled from the spec".

JavaScript values are modelled as follows: an optional request field is an
`Option`; JavaScript truthiness of a number is "not zero", of a string
"not empty"; `parseInt` is the usual sign-and-leading-digits parser returning
`none` for NaN; string length counts characters and `trim` removes leading
and trailing whitespace, both defined over the character list of the string.
-/

namespace Chat

/-- Truthiness of an optional JavaScript number: `undefined` and `0` are falsy. -/
def truthyInt : Option Int → Bool
  | none => false
  | some n => n != 0

/-- Truthiness of an optional JavaScript string: `undefined` and `""` are falsy. -/
def truthyStr : Option String → Bool
  | none => false
  | some s => !s.data.isEmpty

/-- JavaScript `v || d` for an optional string `v` with default `d`. -/
def jsOrStr (v : Option String) (d : String) : String :=
  match v with
  | none => d
  | some s => if s.data.isEmpty then d else s

/-- Whitespace characters removed by JavaScript `String.prototype.trim`. -/
def jsWhitespace (c : Char) : Bool :=
  c == ' ' || c == '\t' || c == '\n' || c == '\r'

/-- JavaScript `s.trim()`: drop leading and trailing whitespace. -/
def jsTrim (s : String) : String :=
  String.mk (List.rdropWhile jsWhitespace (s.data.dropWhile jsWhitespace))

/-- JavaScript `s.length` (character count of the string). -/
def jsLength (s : String) : Nat :=
  s.data.length

/-- JavaScript `parseInt` on a string: skip leading whitespace, read an optional
sign and the leading run of decimal digits; `none` models NaN. -/
def parseIntJs (s : String) : Option Int :=
  let cs := s.data.dropWhile jsWhitespace
  let signDigits : Bool × List Char :=
    match cs with
    | '-' :: rest => (true, rest)
    | '+' :: rest => (false, rest)
    | _ => (false, cs)
  let digits := signDigits.2.takeWhile (·.isDigit)
  if digits.isEmpty then none
  else
    let n : Nat := digits.foldl (fun acc c => acc * 10 + (c.toNat - 48)) 0
    some (if signDigits.1 then -(n : Int) else (n : Int))

/-- JavaScript `parseInt(q) || d`: NaN and `0` both fall back to the default `d`. -/
def jsOrIntDefault (v : Option Int) (d : Int) : Int :=
  match v with
  | none => d
  | some n => if n = 0 then d else n

/-- A character profile row as used by the chat code (name fields only). -/
structure Character where
  firstName : String
  middleName : Option String
  lastName : String
deriving DecidableEq

/-- A persisted chat message row. -/
structure Message where
  id : Nat
  roomId : Int
  characterId : Int
  content : String
  messageType : String
  createdAt : Nat
  archivedAt : Option Nat
deriving DecidableEq

/-- The persistent store visible to the chat code: the message log in insertion
order, the character table, and the next message id to assign. -/
structure Store where
  messages : List Message
  characters : List (Int × Character)
  nextId : Nat
deriving DecidableEq

/-- Modelled from the spec: `storage.getCharacter(characterId)` returns the
character row with the given id, or nothing. -/
def getCharacter (s : Store) (cid : Int) : Option Character :=
  (s.characters.find? (fun p => p.1 == cid)).map (fun p => p.2)

/-- The field bundle passed to `storage.createMessage`. -/
structure MessageData where
  roomId : Int
  characterId : Int
  content : String
  messageType : String
deriving DecidableEq

/-- Modelled from the spec: `storage.createMessage` fails with a validation
error if the content is empty or exceeds 5000 characters after trimming;
otherwise it assigns the next id and the creation timestamp and appends the
message to the log. -/
def createMessage (s : Store) (now : Nat) (d : MessageData) : Option (Message × Store) :=
  if jsLength (jsTrim d.content) = 0 ∨ jsLength (jsTrim d.content) > 5000 then none
  else
    let m : Message :=
      { id := s.nextId, roomId := d.roomId, characterId := d.characterId,
        content := d.content, messageType := d.messageType,
        createdAt := now, archivedAt := none }
    some (m, { s with messages := s.messages ++ [m], nextId := s.nextId + 1 })

/-- Modelled from the spec: `storage.getMessagesByRoom(roomId, limit, offset)`
returns the room messages newest first, skipping `offset` and returning at
most `limit`. -/
def getMessagesByRoom (s : Store) (roomId : Int) (limit offset : Nat) : List Message :=
  (((s.messages.filter (fun m => m.roomId == roomId)).reverse).drop offset).take limit

/-- Body of a POST `/api/chat/messages` request, fields optional as in JSON. -/
structure CreateMessageBody where
  roomId : Option Int
  characterId : Option Int
  content : Option String
  messageType : Option String
deriving DecidableEq

/-- Response of the POST `/api/chat/messages` handler. -/
inductive HttpResp where
  | badRequest (msg : String)
  | ok (m : Message)
  | serverFailure
deriving DecidableEq

/-- POST `/api/chat/messages` handler (src/api.js lines 468-499).  The first
argument is the session identity admitted by `requireAuth`; the handler body
never reads it.  The handler rejects missing fields, rejects content whose
untrimmed length is outside 1..5000, and otherwise calls
`storage.createMessage` with the trimmed content and messageType defaulted to
"text"; a storage failure surfaces as a 500 response. -/
def postChatMessages (_sessionUserId : Int) (s : Store) (now : Nat)
    (b : CreateMessageBody) : HttpResp × Store :=
  if !truthyInt b.roomId || !truthyInt b.characterId || !truthyStr b.content then
    (.badRequest "roomId, characterId, and content are required", s)
  else
    let content := b.content.getD ""
    if jsLength content < 1 ∨ jsLength content > 5000 then
      (.badRequest "Message content must be 1-5000 characters", s)
    else
      let data : MessageData :=
        { roomId := b.roomId.getD 0, characterId := b.characterId.getD 0,
          content := jsTrim content, messageType := jsOrStr b.messageType "text" }
      match createMessage s now data with
      | some (m, s2) => (.ok m, s2)
      | none => (.serverFailure, s)

/-- Limit computed by the GET message handlers:
`parseInt(req.query.limit) || 50` (src/api.js lines 427 and 454). -/
def parsedLimit (q : Option String) : Int :=
  jsOrIntDefault (q.bind parseIntJs) 50

/-- Offset computed by the GET message handlers:
`parseInt(req.query.offset) || 0` (src/api.js lines 428 and 455). -/
def parsedOffset (q : Option String) : Int :=
  jsOrIntDefault (q.bind parseIntJs) 0

/-- The argument triple (roomId, limit, offset) the paginated GET message
handlers pass to `storage.getMessagesByRoom` (src/api.js lines 427-430 and
454-457). -/
def getMessagesCallArgs (roomId : Int) (limitQ offsetQ : Option String) :
    Int × Int × Int :=
  (roomId, parsedLimit limitQ, parsedOffset offsetQ)

/-- One entry of the export payload of GET `/api/chat/rooms/:roomId/export`. -/
structure ExportEntry where
  timestamp : Nat
  character : String
  message : String
  type : String
deriving DecidableEq

/-- Full display name built by the export and broadcast code:
firstName, optional middleName (skipped when absent or empty), lastName. -/
def characterFullName (c : Character) : String :=
  c.firstName ++
    (match c.middleName with
      | some mid => if mid.data.isEmpty then "" else " " ++ mid
      | none => "") ++
    " " ++ c.lastName

/-- Projection of one message row into the export shape; fails (the JavaScript
code would throw) when the message character is absent from the store. -/
def projectExport (s : Store) (m : Message) : Option ExportEntry :=
  (getCharacter s m.characterId).map fun c =>
    { timestamp := m.createdAt, character := characterFullName c,
      message := m.content, type := m.messageType }

/-- Projection of a whole message list; `none` when any character is missing. -/
def projectAll (s : Store) : List Message → Option (List ExportEntry)
  | [] => some []
  | m :: rest =>
    match projectExport s m, projectAll s rest with
    | some e, some es => some (e :: es)
    | _, _ => none

/-- GET `/api/chat/rooms/:roomId/export` handler (src/api.js lines 514-533):
read up to the 1000 most recent messages of the room and project each to
the export entry shape; `none` models the 500 response produced when a
character lookup inside the projection throws. -/
def exportRoom (s : Store) (roomId : Int) : Option (List ExportEntry) :=
  projectAll s (getMessagesByRoom s roomId 1000 0)

/-- Identity bound to a WebSocket connection by the authenticate event
(`activeConnections` map value in src/api.js line 541). -/
structure ConnInfo where
  userId : Option Int
  characterId : Option Int
deriving DecidableEq

/-- State of the WebSocket server: the persistent store, the set of transport
clients of `wss.clients` paired with whether their readyState is OPEN, and the
`activeConnections` map from connection id to bound identity. -/
structure WsState where
  store : Store
  clients : List (Nat × Bool)
  activeConnections : List (Nat × ConnInfo)
deriving DecidableEq

/-- Lookup in the `activeConnections` map. -/
def lookupConn (a : List (Nat × ConnInfo)) (c : Nat) : Option ConnInfo :=
  (a.find? (fun p => p.1 == c)).map (fun p => p.2)

/-- Map set on the `activeConnections` map: overwrite the entry of the key
when present, otherwise append a fresh entry. -/
def setConn : List (Nat × ConnInfo) → Nat → ConnInfo → List (Nat × ConnInfo)
  | [], c, i => [(c, i)]
  | p :: rest, c, i => if p.1 = c then (c, i) :: rest else p :: setConn rest c i

/-- Inbound WebSocket events handled by the server (src/api.js lines 550-602). -/
inductive ClientMsg where
  | authenticate (userId characterId : Option Int)
  | chatMessage (roomId : Option Int) (characterId : Option Int)
      (content : Option String) (messageType : Option String)
deriving DecidableEq

/-- Outbound WebSocket events sent by the server. -/
inductive ServerMsg where
  | authenticated (success : Bool)
  | errorNotice (msg : String)
  | newMessage (m : Message) (c : Character)
deriving DecidableEq

/-- Modelled from the spec: `insertMessageSchema.parse` validates the message
shape — roomId present and content present with trimmed length in 1..5000 —
and returns the validated field bundle; failure models the thrown zod error. -/
def insertMessageSchemaCheck (roomId : Option Int) (characterId : Int)
    (content : Option String) (messageType : String) : Option MessageData :=
  match roomId with
  | none => none
  | some r =>
    match content with
    | none => none
    | some c =>
      if jsLength (jsTrim c) = 0 ∨ jsLength (jsTrim c) > 5000 then none
      else some { roomId := r, characterId := characterId, content := c,
                  messageType := messageType }

/-- The WebSocket message handler (src/api.js lines 546-608).  Returns the new
server state and the list of (connection id, event) sends it performs.
The authenticate case binds whatever identity the payload carries and replies
with success.  The chat case requires a truthy bound characterId, validates
through the schema using the bound characterId (the payload characterId is
never read), persists, looks up the character of the bound id, and on success
broadcasts the new message to every OPEN client; a schema or storage failure
is caught and answered with an invalid-format notice to the sender only, and
a missing character aborts the broadcast after the message was saved. -/
def handleWsMessage (st : WsState) (self : Nat) (msg : ClientMsg) (now : Nat) :
    WsState × List (Nat × ServerMsg) :=
  match msg with
  | .authenticate u c =>
    ({ st with activeConnections := setConn st.activeConnections self ⟨u, c⟩ },
     [(self, .authenticated true)])
  | .chatMessage roomId _payloadCharacterId content messageType =>
    match lookupConn st.activeConnections self with
    | none => (st, [(self, .errorNotice "Not authenticated")])
    | some info =>
      match info.characterId with
      | none => (st, [(self, .errorNotice "Not authenticated")])
      | some cid =>
        if cid = 0 then (st, [(self, .errorNotice "Not authenticated")])
        else
          match insertMessageSchemaCheck roomId cid content
              (jsOrStr messageType "message") with
          | none => (st, [(self, .errorNotice "Invalid message format")])
          | some validated =>
            match createMessage st.store now validated with
            | none => (st, [(self, .errorNotice "Invalid message format")])
            | some (saved, store2) =>
              match getCharacter store2 cid with
              | none => ({ st with store := store2 }, [])
              | some ch =>
                ({ st with store := store2 },
                 (st.clients.filter (fun p => p.2)).map
                   (fun cl => (cl.1, .newMessage saved ch)))

/-- Connection callback of `wss.on` (src/api.js line 543): the transport joins
`wss.clients`; nothing is inserted into `activeConnections`. -/
def onConnect (st : WsState) (c : Nat) : WsState :=
  { st with clients := st.clients ++ [(c, true)] }

/-- Close callback of `ws.on` (src/api.js lines 610-613): the transport leaves
`wss.clients` and its `activeConnections` entry is deleted unconditionally. -/
def onClose (st : WsState) (c : Nat) : WsState :=
  { st with clients := st.clients.filter (fun p => p.1 != c),
            activeConnections := st.activeConnections.filter (fun p => p.1 != c) }

/-! Helper lemmas about the registry and storage operations. -/

theorem lookupConn_setConn_self (a : List (Nat × ConnInfo)) (c : Nat) (i : ConnInfo) :
    lookupConn (setConn a c i) c = some i := by
  induction a with
  | nil => simp [setConn, lookupConn]
  | cons p rest ih =>
    by_cases h : p.1 = c
    · simp [setConn, lookupConn, h]
    · simp only [setConn, if_neg h]
      simpa [lookupConn, List.find?_cons, show (p.1 == c) = false by simpa using h]
        using ih

theorem lookupConn_filter_out (a : List (Nat × ConnInfo)) (c : Nat) :
    lookupConn (a.filter (fun p => p.1 != c)) c = none := by
  unfold lookupConn
  rw [List.find?_eq_none.mpr]
  · rfl
  · intro x hx
    have hpx : (x.1 != c) = true := (List.mem_filter.mp hx).2
    simp only [bne_iff_ne, ne_eq] at hpx
    simp [hpx]

theorem insertMessageSchemaCheck_fields (roomId : Option Int) (cid : Int)
    (content : Option String) (mt : String) (v : MessageData)
    (h : insertMessageSchemaCheck roomId cid content mt = some v) :
    v.characterId = cid ∧ v.messageType = mt ∧ roomId = some v.roomId ∧
      content = some v.content := by
  cases roomId with
  | none => simp [insertMessageSchemaCheck] at h
  | some r =>
    cases content with
    | none => simp [insertMessageSchemaCheck] at h
    | some c =>
      by_cases hlen : jsLength (jsTrim c) = 0 ∨ jsLength (jsTrim c) > 5000
      · simp [insertMessageSchemaCheck, if_pos hlen] at h
      · simp only [insertMessageSchemaCheck, if_neg hlen] at h
        cases h
        exact ⟨rfl, rfl, rfl, rfl⟩

theorem insertMessageSchemaCheck_content_ok (roomId : Option Int) (cid : Int)
    (content : Option String) (mt : String) (v : MessageData)
    (h : insertMessageSchemaCheck roomId cid content mt = some v) :
    ¬(jsLength (jsTrim v.content) = 0 ∨ jsLength (jsTrim v.content) > 5000) := by
  cases roomId with
  | none => simp [insertMessageSchemaCheck] at h
  | some r =>
    cases content with
    | none => simp [insertMessageSchemaCheck] at h
    | some c =>
      by_cases hlen : jsLength (jsTrim c) = 0 ∨ jsLength (jsTrim c) > 5000
      · simp [insertMessageSchemaCheck, if_pos hlen] at h
      · simp only [insertMessageSchemaCheck, if_neg hlen] at h
        cases h
        exact hlen

theorem createMessage_spec (s : Store) (now : Nat) (d : MessageData) (m : Message)
    (s2 : Store) (h : createMessage s now d = some (m, s2)) :
    m.characterId = d.characterId ∧ m.messageType = d.messageType ∧
      m.roomId = d.roomId ∧ m.content = d.content ∧ m.id = s.nextId ∧
      m.createdAt = now ∧ s2.messages = s.messages ++ [m] ∧
      s2.characters = s.characters ∧ s2.nextId = s.nextId + 1 := by
  unfold createMessage at h
  split at h
  · cases h
  · cases h
    exact ⟨rfl, rfl, rfl, rfl, rfl, rfl, rfl, rfl, rfl⟩

theorem createMessage_ok (s : Store) (now : Nat) (d : MessageData)
    (h : ¬(jsLength (jsTrim d.content) = 0 ∨ jsLength (jsTrim d.content) > 5000)) :
    ∃ m s2, createMessage s now d = some (m, s2) := by
  unfold createMessage
  rw [if_neg h]
  exact ⟨_, _, rfl⟩

/-! Results for the individual claims. -/

/-- C9: every authenticate event, whatever its payload (including an absent
userId or characterId), binds exactly the supplied identity fields, replies to
the sender with a success acknowledgement, and performs no credential or
session check: the store and the client set are untouched and the reply is
unconditional. -/
theorem c9_authenticate_always_succeeds (st : WsState) (self : Nat)
    (u c : Option Int) (now : Nat) :
    (handleWsMessage st self (.authenticate u c) now).2
        = [(self, .authenticated true)] ∧
    lookupConn (handleWsMessage st self (.authenticate u c) now).1.activeConnections
        self = some ⟨u, c⟩ ∧
    (handleWsMessage st self (.authenticate u c) now).1.store = st.store ∧
    (handleWsMessage st self (.authenticate u c) now).1.clients = st.clients :=
  ⟨rfl, by simp [handleWsMessage, lookupConn_setConn_self], rfl, rfl⟩

/-- C4: a chat message on a connection with no registry entry produces exactly
one unauthenticated notice sent to the sender, and the state is unchanged, so
nothing is persisted and no broadcast reaches any connection. -/
theorem c4_unauthenticated_chat_rejected (st : WsState) (self : Nat)
    (roomId pcid : Option Int) (content mt : Option String) (now : Nat)
    (h : lookupConn st.activeConnections self = none) :
    handleWsMessage st self (.chatMessage roomId pcid content mt) now
      = (st, [(self, .errorNotice "Not authenticated")]) := by
  simp [handleWsMessage, h]

/-- A websocket state with one fresh, never-authenticated connection. -/
def wsFresh : WsState :=
  { store := { messages := [], characters := [], nextId := 1 },
    clients := [(0, true)], activeConnections := [] }

/-- Witness for C4 at a concrete never-authenticated connection. -/
theorem c4_witness :
    handleWsMessage wsFresh 0 (.chatMessage (some 1) (some 7) (some "hi") none) 0
      = (wsFresh, [(0, .errorNotice "Not authenticated")]) :=
  c4_unauthenticated_chat_rejected wsFresh 0 (some 1) (some 7) (some "hi") none 0 rfl

/-- C8 counterexample: immediately after a transport connects, the registry
holds no entry for it at all, refuting the claim that connect inserts an
entry with no identity bound. -/
theorem c8_counterexample :
    lookupConn (onConnect wsFresh 5).activeConnections 5 = none ∧
    (onConnect wsFresh 5).activeConnections = [] :=
  ⟨rfl, rfl⟩

/-- C8 amended: connect inserts nothing into the registry; the first
authenticate event creates (or overwrites) the entry of the connection with
exactly the supplied identity; disconnect removes the entry unconditionally. -/
theorem c8_amended_lifecycle :
    (∀ st c, (onConnect st c).activeConnections = st.activeConnections) ∧
    (∀ st self u ch now,
        lookupConn
          (handleWsMessage st self (.authenticate u ch) now).1.activeConnections
          self = some ⟨u, ch⟩) ∧
    (∀ st c, lookupConn (onClose st c).activeConnections c = none) := by
  refine ⟨fun st c => rfl, fun st self u ch now => ?_, fun st c => ?_⟩
  · simp [handleWsMessage, lookupConn_setConn_self]
  · exact lookupConn_filter_out _ _

/-- C2: on a connection whose registry entry binds characterId C, processing a
chat message with an arbitrary payload characterId either persists nothing or
appends exactly one message whose characterId is the registry-bound C; the
client-supplied payload characterId is never used. -/
theorem c2_bound_identity_wins (st : WsState) (self : Nat) (info : ConnInfo)
    (C : Int) (roomId pcid : Option Int) (content mt : Option String) (now : Nat)
    (hconn : lookupConn st.activeConnections self = some info)
    (hcid : info.characterId = some C) :
    (handleWsMessage st self
        (.chatMessage roomId pcid content mt) now).1.store.messages
        = st.store.messages ∨
    ∃ m, (handleWsMessage st self
        (.chatMessage roomId pcid content mt) now).1.store.messages
        = st.store.messages ++ [m] ∧ m.characterId = C := by
  simp only [handleWsMessage, hconn, hcid]
  by_cases h0 : C = 0
  · rw [if_pos h0]
    exact Or.inl rfl
  · rw [if_neg h0]
    cases hschema : insertMessageSchemaCheck roomId C content (jsOrStr mt "message") with
    | none => exact Or.inl rfl
    | some v =>
      dsimp only
      cases hcr : createMessage st.store now v with
      | none => exact Or.inl rfl
      | some pair =>
        obtain ⟨m, s2⟩ := pair
        dsimp only
        have hspec := createMessage_spec st.store now v m s2 hcr
        have hv := insertMessageSchemaCheck_fields roomId C content
          (jsOrStr mt "message") v hschema
        cases hch : getCharacter s2 C with
        | none =>
          refine Or.inr ⟨m, ?_, ?_⟩
          · exact hspec.2.2.2.2.2.2.1
          · rw [hspec.1, hv.1]
        | some ch =>
          refine Or.inr ⟨m, ?_, ?_⟩
          · exact hspec.2.2.2.2.2.2.1
          · rw [hspec.1, hv.1]

/-- A websocket state with two open clients, both authenticated, and one
character row for character 1. -/
def wsLive : WsState :=
  { store := { messages := [],
               characters :=
                 [(1, { firstName := "Jan", middleName := none, lastName := "Novak" })],
               nextId := 1 },
    clients := [(0, true), (1, true)],
    activeConnections := [(0, ⟨some 9, some 1⟩), (1, ⟨some 8, some 2⟩)] }

/-- Witness for C2: connection 0 is bound to character 1 and sends a payload
claiming character 42; every hypothesis is discharged at this concrete input. -/
theorem c2_witness :
    (handleWsMessage wsLive 0
        (.chatMessage (some 1) (some 42) (some "hello") none) 0).1.store.messages
        = wsLive.store.messages ∨
    ∃ m, (handleWsMessage wsLive 0
        (.chatMessage (some 1) (some 42) (some "hello") none) 0).1.store.messages
        = wsLive.store.messages ++ [m] ∧ m.characterId = 1 :=
  c2_bound_identity_wins wsLive 0 ⟨some 9, some 1⟩ 1 (some 1) (some 42)
    (some "hello") none 0 rfl rfl

/-- C10: the HTTP message-creation handler is independent of the session
identity, and every message it persists carries exactly the client-supplied
characterId of the request body — no check ties the character to the
requesting account. -/
theorem c10_http_client_supplied_character :
    (∀ u1 u2 s now b, postChatMessages u1 s now b = postChatMessages u2 s now b) ∧
    (∀ u s now b m, (postChatMessages u s now b).1 = .ok m →
        b.characterId = some m.characterId) := by
  constructor
  · intro u1 u2 s now b
    rfl
  · intro u s now b m h
    unfold postChatMessages at h
    dsimp only at h
    by_cases hreq : (!truthyInt b.roomId || !truthyInt b.characterId
        || !truthyStr b.content) = true
    · rw [if_pos hreq] at h
      simp at h
    · rw [if_neg hreq] at h
      have hB : truthyInt b.characterId = true := by
        by_contra hB
        apply hreq
        simp only [Bool.not_eq_true] at hB
        simp [hB]
      obtain ⟨n, hn⟩ : ∃ n, b.characterId = some n := by
        cases hx : b.characterId with
        | none => rw [hx] at hB; simp [truthyInt] at hB
        | some n => exact ⟨n, rfl⟩
      by_cases hlen : jsLength (b.content.getD "") < 1 ∨ jsLength (b.content.getD "") > 5000
      · rw [if_pos hlen] at h
        simp at h
      · rw [if_neg hlen] at h
        split at h
        case _ m2 s2 heq =>
          have hc := (createMessage_spec _ _ _ _ _ heq).1
          cases h
          rw [hc, hn]
          simp [hn]
        case _ heq =>
          simp at h

/-- Concrete empty store used for HTTP witnesses. -/
def store0 : Store := { messages := [], characters := [], nextId := 1 }

/-- Concrete valid HTTP body with no messageType. -/
def body0 : CreateMessageBody :=
  { roomId := some 1, characterId := some 42, content := some "hi", messageType := none }

/-- The message the HTTP handler persists for `body0` against `store0`. -/
def mBody0 : Message :=
  { id := 1, roomId := 1, characterId := 42, content := "hi",
    messageType := "text", createdAt := 0, archivedAt := none }

/-- Witness for C10: with session user 7 the persisted characterId is the
body-supplied 42, and the handler result is identical for session users 1
and 99. -/
theorem c10_witness :
    postChatMessages 1 store0 0 body0 = postChatMessages 99 store0 0 body0 ∧
    body0.characterId = some mBody0.characterId :=
  ⟨c10_http_client_supplied_character.1 1 99 store0 0 body0,
   c10_http_client_supplied_character.2 7 store0 0 body0 mBody0 rfl⟩

/-- C5 counterexample: over the WebSocket path a chat message without a
messageType is persisted with messageType "message", not the claimed default
"text". -/
theorem c5_counterexample :
    (handleWsMessage wsLive 0
        (.chatMessage (some 1) none (some "hello") none) 0).1.store.messages.map
        (fun m => m.messageType) = ["message"] ∧ ("message" : String) ≠ "text" := by
  exact ⟨rfl, by decide⟩

/-- C5 amended: a message created without an explicit messageType defaults to
"text" on the HTTP creation endpoint but to "message" on the WebSocket chat
path. -/
theorem c5_amended_default_message_types :
    (∀ u s now b m, b.messageType = none → (postChatMessages u s now b).1 = .ok m →
        m.messageType = "text") ∧
    (∀ st self roomId pcid content now,
        (handleWsMessage st self
            (.chatMessage roomId pcid content none) now).1.store.messages
            = st.store.messages ∨
        ∃ m, (handleWsMessage st self
            (.chatMessage roomId pcid content none) now).1.store.messages
            = st.store.messages ++ [m] ∧ m.messageType = "message") := by
  constructor
  · intro u s now b m hmt h
    unfold postChatMessages at h
    dsimp only at h
    by_cases hreq : (!truthyInt b.roomId || !truthyInt b.characterId
        || !truthyStr b.content) = true
    · rw [if_pos hreq] at h
      simp at h
    · rw [if_neg hreq] at h
      by_cases hlen : jsLength (b.content.getD "") < 1 ∨ jsLength (b.content.getD "") > 5000
      · rw [if_pos hlen] at h
        simp at h
      · rw [if_neg hlen] at h
        split at h
        case _ m2 s2 heq =>
          have hc := (createMessage_spec _ _ _ _ _ heq).2.1
          cases h
          rw [hc, hmt]
          rfl
        case _ heq =>
          simp at h
  · intro st self roomId pcid content now
    cases hconn : lookupConn st.activeConnections self with
    | none => simp [handleWsMessage, hconn]
    | some info =>
      cases hcid : info.characterId with
      | none => simp [handleWsMessage, hconn, hcid]
      | some cid =>
        simp only [handleWsMessage, hconn, hcid]
        by_cases h0 : cid = 0
        · rw [if_pos h0]
          exact Or.inl rfl
        · rw [if_neg h0]
          cases hschema : insertMessageSchemaCheck roomId cid content
              (jsOrStr none "message") with
          | none => exact Or.inl rfl
          | some v =>
            dsimp only
            cases hcr : createMessage st.store now v with
            | none => exact Or.inl rfl
            | some pair =>
              obtain ⟨m, s2⟩ := pair
              dsimp only
              have hspec := createMessage_spec st.store now v m s2 hcr
              have hv := insertMessageSchemaCheck_fields roomId cid content
                (jsOrStr none "message") v hschema
              cases hch : getCharacter s2 cid with
              | none =>
                refine Or.inr ⟨m, hspec.2.2.2.2.2.2.1, ?_⟩
                rw [hspec.2.1, hv.2.1]
                rfl
              | some ch =>
                refine Or.inr ⟨m, hspec.2.2.2.2.2.2.1, ?_⟩
                rw [hspec.2.1, hv.2.1]
                rfl

/-- Witness for C5: the HTTP default applied at the concrete `body0`, and the
WebSocket branch applied at a concrete authenticated connection. -/
theorem c5_witness :
    mBody0.messageType = "text" ∧
    ((handleWsMessage wsLive 0
        (.chatMessage (some 1) none (some "hello") none) 0).1.store.messages
        = wsLive.store.messages ∨
     ∃ m, (handleWsMessage wsLive 0
        (.chatMessage (some 1) none (some "hello") none) 0).1.store.messages
        = wsLive.store.messages ++ [m] ∧ m.messageType = "message") :=
  ⟨c5_amended_default_message_types.1 7 store0 0 body0 mBody0 rfl rfl,
   c5_amended_default_message_types.2 wsLive 0 (some 1) none (some "hello") 0⟩

/-- C6 counterexample: a negative limit query value is parsed and forwarded
as -5 by the paginated read handlers instead of falling back to the claimed
default of 50. -/
theorem c6_counterexample :
    (getMessagesCallArgs 1 (some "-5") none).2.1 = -5 ∧
    (getMessagesCallArgs 1 (some "-5") none).2.1 ≠ 50 ∧ (-5 : Int) < 0 :=
  ⟨rfl, by decide, by decide⟩

/-- C6 amended: limit and offset values that parse to NaN (unspecified or
non-numeric) fall back to limit=50 and offset=0, an explicit 0 also falls back
because 0 is falsy, and every other parsed value — negative ones included —
is passed to the store unchanged. -/
theorem c6_amended_pagination_defaults (roomId : Int) (limitQ offsetQ : Option String) :
    (limitQ.bind parseIntJs = none →
        (getMessagesCallArgs roomId limitQ offsetQ).2.1 = 50) ∧
    (offsetQ.bind parseIntJs = none →
        (getMessagesCallArgs roomId limitQ offsetQ).2.2 = 0) ∧
    (limitQ.bind parseIntJs = some 0 →
        (getMessagesCallArgs roomId limitQ offsetQ).2.1 = 50) ∧
    (offsetQ.bind parseIntJs = some 0 →
        (getMessagesCallArgs roomId limitQ offsetQ).2.2 = 0) ∧
    (∀ n, n ≠ 0 → limitQ.bind parseIntJs = some n →
        (getMessagesCallArgs roomId limitQ offsetQ).2.1 = n) ∧
    (∀ n, n ≠ 0 → offsetQ.bind parseIntJs = some n →
        (getMessagesCallArgs roomId limitQ offsetQ).2.2 = n) := by
  unfold getMessagesCallArgs parsedLimit parsedOffset jsOrIntDefault
  refine ⟨?_, ?_, ?_, ?_, ?_, ?_⟩
  · intro h; rw [h]
  · intro h; rw [h]
  · intro h; rw [h]; simp
  · intro h; rw [h]; simp
  · intro n hn h; rw [h]; simp [hn]
  · intro n hn h; rw [h]; simp [hn]

/-- Witness for C6: a non-numeric limit falls back to 50, an explicit zero
offset falls back to 0, and parseable values pass through unchanged, -5
included. -/
theorem c6_witness :
    (getMessagesCallArgs 2 (some "abc") (some "0")).2.1 = 50 ∧
    (getMessagesCallArgs 2 (some "abc") (some "0")).2.2 = 0 ∧
    (getMessagesCallArgs 2 (some "-5") (some "7")).2.1 = -5 ∧
    (getMessagesCallArgs 2 (some "-5") (some "7")).2.2 = 7 :=
  ⟨(c6_amended_pagination_defaults 2 (some "abc") (some "0")).1 rfl,
   (c6_amended_pagination_defaults 2 (some "abc") (some "0")).2.2.2.1 rfl,
   (c6_amended_pagination_defaults 2 (some "-5") (some "7")).2.2.2.2.1 (-5)
     (by decide) rfl,
   (c6_amended_pagination_defaults 2 (some "-5") (some "7")).2.2.2.2.2 7
     (by decide) rfl⟩

/-! C1: validation of HTTP message creation. -/

theorem replicate5000_cons : List.replicate 5000 'a' = 'a' :: List.replicate 4999 'a' := by
  have h := List.replicate_succ 'a' 4999
  norm_num at h
  exact h

theorem replicate5000_concat : List.replicate 5000 'a' = List.replicate 4999 'a' ++ ['a'] := by
  have h := List.replicate_succ' 4999 'a'
  norm_num at h
  exact h

/-- The 5001-character content whose trimmed length is 5000: 5000 letters
followed by one trailing space. -/
def bigContent : String := String.mk (List.replicate 5000 'a' ++ [' '])

theorem jsLength_bigContent : jsLength bigContent = 5001 := by
  show (List.replicate 5000 'a' ++ [' ']).length = 5001
  rw [List.length_append, List.length_replicate, List.length_singleton]

theorem jsTrim_bigContent : jsTrim bigContent = String.mk (List.replicate 5000 'a') := by
  show String.mk (List.rdropWhile jsWhitespace
      ((List.replicate 5000 'a' ++ [' ']).dropWhile jsWhitespace)) = _
  have h1 : (List.replicate 5000 'a' ++ [' ']).dropWhile jsWhitespace
      = List.replicate 5000 'a' ++ [' '] := by
    rw [replicate5000_cons, List.cons_append, List.dropWhile_cons,
      if_neg (by decide)]
  rw [h1, List.rdropWhile_concat_pos _ _ ' ' (by decide), replicate5000_concat,
    List.rdropWhile_concat_neg _ _ 'a' (by decide)]

theorem jsLength_trim_bigContent : jsLength (jsTrim bigContent) = 5000 := by
  rw [jsTrim_bigContent]
  show (List.replicate 5000 'a').length = 5000
  rw [List.length_replicate]

theorem truthyStr_bigContent : truthyStr (some bigContent) = true := by
  show (!(List.replicate 5000 'a' ++ [' ']).isEmpty) = true
  rw [replicate5000_cons, List.cons_append]
  rfl

/-- Concrete request body carrying `bigContent`. -/
def bigBody : CreateMessageBody :=
  { roomId := some 1, characterId := some 1, content := some bigContent,
    messageType := none }

theorem c1_handler_eval :
    postChatMessages 1 store0 0 bigBody
      = (.badRequest "Message content must be 1-5000 characters", store0) := by
  unfold postChatMessages bigBody
  rw [if_neg (by simp [truthyInt, truthyStr_bigContent])]
  dsimp only [Option.getD]
  rw [if_pos (Or.inr (by rw [jsLength_bigContent]; norm_num))]

/-- C1 counterexample: `bigContent` trims to exactly 5000 characters, so the
claim says the creation must succeed, yet the handler rejects it with the
length validation error (its check runs on the untrimmed string) and leaves
the store untouched. -/
theorem c1_counterexample :
    (1 ≤ jsLength (jsTrim bigContent) ∧ jsLength (jsTrim bigContent) ≤ 5000) ∧
    (postChatMessages 1 store0 0 bigBody).1
        = .badRequest "Message content must be 1-5000 characters" ∧
    (postChatMessages 1 store0 0 bigBody).2 = store0 := by
  refine ⟨⟨?_, ?_⟩, ?_, ?_⟩
  · rw [jsLength_trim_bigContent]; norm_num
  · rw [jsLength_trim_bigContent]
  · rw [c1_handler_eval]
  · rw [c1_handler_eval]

/-- Trimming is idempotent, connecting the handler validation (untrimmed
length) with the storage validation applied to the already-trimmed content. -/
theorem jsTrim_idem (s : String) : jsTrim (jsTrim s) = jsTrim s := by
  show String.mk (List.rdropWhile jsWhitespace
      ((List.rdropWhile jsWhitespace
        (s.data.dropWhile jsWhitespace)).dropWhile jsWhitespace)) = _
  have h1 : (List.rdropWhile jsWhitespace
      (s.data.dropWhile jsWhitespace)).dropWhile jsWhitespace
      = List.rdropWhile jsWhitespace (s.data.dropWhile jsWhitespace) := by
    rw [List.dropWhile_eq_self_iff]
    intro hl
    have hpre := List.rdropWhile_prefix jsWhitespace
      (s.data.dropWhile jsWhitespace)
    have hlu : 0 < (s.data.dropWhile jsWhitespace).length :=
      lt_of_lt_of_le hl hpre.length_le
    have key := hpre.getElem hl
    have h2 := List.dropWhile_get_zero_not jsWhitespace s.data hlu
    simp only [List.get_eq_getElem] at h2 ⊢
    rw [key]
    exact h2
  rw [h1, List.rdropWhile_idempotent]
  rfl

theorem createMessage_none_iff (s : Store) (now : Nat) (d : MessageData) :
    createMessage s now d = none ↔
      (jsLength (jsTrim d.content) = 0 ∨ jsLength (jsTrim d.content) > 5000) := by
  unfold createMessage
  split
  · next h => simp [h]
  · next h => simp [h]

/-- C1 amended: HTTP message creation succeeds iff roomId, characterId and
content are truthy, the untrimmed content length is at most 5000, and the
trimmed content length lies in 1..5000.  The 1..5000 validation error checks
the untrimmed length, so content whose untrimmed length exceeds 5000 is
rejected even when it trims into range; whitespace-only content passes the
handler check and is rejected by the store as a 500, not a validation error.
On every failure the store is unchanged. -/
theorem c1_amended_validation (u : Int) (s : Store) (now : Nat)
    (b : CreateMessageBody) :
    ((∃ m, (postChatMessages u s now b).1 = .ok m) ↔
      (truthyInt b.roomId = true ∧ truthyInt b.characterId = true ∧
        ∃ c, b.content = some c ∧ truthyStr (some c) = true ∧
          jsLength c ≤ 5000 ∧ 1 ≤ jsLength (jsTrim c) ∧
          jsLength (jsTrim c) ≤ 5000)) ∧
    ((¬∃ m, (postChatMessages u s now b).1 = .ok m) →
      (postChatMessages u s now b).2 = s) := by
  by_cases hreq : (!truthyInt b.roomId || !truthyInt b.characterId
      || !truthyStr b.content) = true
  · have heval : postChatMessages u s now b
        = (.badRequest "roomId, characterId, and content are required", s) := by
      unfold postChatMessages
      rw [if_pos hreq]
    rw [heval]
    constructor
    · constructor
      · rintro ⟨m, hm⟩
        simp at hm
      · rintro ⟨h1, h2, c, hc, htr, -, -, -⟩
        rw [h1, h2, hc, htr] at hreq
        simp at hreq
    · intro _
      rfl
  · have h1 : truthyInt b.roomId = true := by
      by_contra hx
      apply hreq
      simp only [Bool.not_eq_true] at hx
      simp [hx]
    have h2 : truthyInt b.characterId = true := by
      by_contra hx
      apply hreq
      simp only [Bool.not_eq_true] at hx
      simp [hx]
    have h3 : truthyStr b.content = true := by
      by_contra hx
      apply hreq
      simp only [Bool.not_eq_true] at hx
      simp [hx]
    obtain ⟨c, hc⟩ : ∃ c, b.content = some c := by
      cases hcc : b.content with
      | none => rw [hcc] at h3; simp [truthyStr] at h3
      | some c => exact ⟨c, rfl⟩
    have h3c : truthyStr (some c) = true := by rw [← hc]; exact h3
    have hc1 : 1 ≤ jsLength c := by
      have hne : c.data ≠ [] := by simpa [truthyStr] using h3c
      have := List.length_pos.mpr hne
      simpa [jsLength] using this
    have heval : postChatMessages u s now b
        = (if jsLength c < 1 ∨ jsLength c > 5000 then
            (.badRequest "Message content must be 1-5000 characters", s)
          else
            match createMessage s now
                { roomId := b.roomId.getD 0, characterId := b.characterId.getD 0,
                  content := jsTrim c, messageType := jsOrStr b.messageType "text" } with
            | some (m, s2) => (.ok m, s2)
            | none => (.serverFailure, s)) := by
      unfold postChatMessages
      rw [if_neg hreq, hc]
      rfl
    by_cases hlen : jsLength c < 1 ∨ jsLength c > 5000
    · rw [if_pos hlen] at heval
      rw [heval]
      constructor
      · constructor
        · rintro ⟨m, hm⟩
          simp at hm
        · rintro ⟨-, -, c2, hc2, -, hle, -, -⟩
          rw [hc] at hc2
          cases hc2
          rcases hlen with h | h <;> omega
      · intro _
        rfl
    · rw [if_neg hlen] at heval
      have hle5000 : jsLength c ≤ 5000 := by
        rcases le_or_lt (jsLength c) 5000 with h | h
        · exact h
        · exact absurd (Or.inr h) hlen
      cases hcr : createMessage s now
          { roomId := b.roomId.getD 0, characterId := b.characterId.getD 0,
            content := jsTrim c, messageType := jsOrStr b.messageType "text" } with
      | none =>
        rw [hcr] at heval
        have hbad := (createMessage_none_iff s now _).mp hcr
        dsimp only at hbad
        rw [jsTrim_idem c] at hbad
        rw [heval]
        constructor
        · constructor
          · rintro ⟨m, hm⟩
            simp at hm
          · rintro ⟨-, -, c2, hc2, -, -, hge, hle2⟩
            rw [hc] at hc2
            cases hc2
            rcases hbad with h | h <;> omega
        · intro _
          rfl
      | some pair =>
        obtain ⟨m, s2⟩ := pair
        rw [hcr] at heval
        have hok : ¬(jsLength (jsTrim (jsTrim c)) = 0
            ∨ jsLength (jsTrim (jsTrim c)) > 5000) := by
          intro hx
          rw [(createMessage_none_iff s now _).mpr hx] at hcr
          cases hcr
        rw [jsTrim_idem c] at hok
        push_neg at hok
        rw [heval]
        refine ⟨⟨fun _ => ⟨h1, h2, c, hc, h3c, hle5000, ?_, ?_⟩,
          fun _ => ⟨m, rfl⟩⟩, fun hn => absurd ⟨m, rfl⟩ hn⟩
        · omega
        · omega

/-- Whitespace-only request body: passes the handler length check, rejected
inside the store. -/
def bSpace : CreateMessageBody :=
  { roomId := some 1, characterId := some 1, content := some " ",
    messageType := none }

/-- Witness for C1 amended: a concrete valid body succeeds and satisfies the
characterization, and the whitespace-only body fails with the store left
unchanged. -/
theorem c1_amended_witness :
    (∃ m, (postChatMessages 3 store0 0 body0).1 = .ok m) ∧
    (postChatMessages 3 store0 0 bSpace).2 = store0 :=
  ⟨(c1_amended_validation 3 store0 0 body0).1.mpr
      ⟨rfl, rfl, "hi", rfl, rfl, by decide, by decide, by decide⟩,
   (c1_amended_validation 3 store0 0 bSpace).2 (by
      rintro ⟨m, hm⟩
      rw [show (postChatMessages 3 store0 0 bSpace).1 = HttpResp.serverFailure
        from rfl] at hm
      cases hm)⟩

/-! C3: broadcast fan-out. -/

/-- A websocket state where connection 0 is bound to character 5 although no
such character row exists; both clients are registered and open. -/
def wsGhost : WsState :=
  { store := { messages := [], characters := [], nextId := 1 },
    clients := [(0, true), (1, true)],
    activeConnections := [(0, ⟨some 9, some 5⟩), (1, ⟨some 8, some 2⟩)] }

/-- C3 counterexample: the chat message is persisted — the log grows by one —
yet the send list is empty, so no registered connection receives any
broadcast: the character lookup for the bound id fails after persistence and
the handler returns without sending. -/
theorem c3_counterexample :
    (handleWsMessage wsGhost 0
        (.chatMessage (some 1) none (some "hello") none) 0).1.store.messages.length
        = 1 ∧
    (handleWsMessage wsGhost 0
        (.chatMessage (some 1) none (some "hello") none) 0).2 = [] ∧
    wsGhost.activeConnections.length = 2 ∧
    (wsGhost.clients.filter (fun p => p.2)).length = 2 :=
  ⟨rfl, rfl, rfl, rfl⟩

/-- C3 amended: when persistence succeeds and the bound character exists, the
new-message envelope (the persisted message together with the character name
fields) is sent to every OPEN client of the server, with no filtering by the
roomId of the message; when the bound character is missing, the message stays
persisted but no send occurs. -/
theorem c3_amended_broadcast (st : WsState) (self : Nat) (info : ConnInfo)
    (C : Int) (roomId pcid : Option Int) (content mt : Option String)
    (now : Nat) (v : MessageData) (ch : Character)
    (hconn : lookupConn st.activeConnections self = some info)
    (hcid : info.characterId = some C) (h0 : C ≠ 0)
    (hschema : insertMessageSchemaCheck roomId C content (jsOrStr mt "message")
      = some v)
    (hch : getCharacter st.store C = some ch) :
    ∃ saved store2, createMessage st.store now v = some (saved, store2) ∧
      handleWsMessage st self (.chatMessage roomId pcid content mt) now
        = ({ st with store := store2 },
           (st.clients.filter (fun p => p.2)).map
             (fun cl => (cl.1, .newMessage saved ch))) ∧
      store2.messages = st.store.messages ++ [saved] := by
  obtain ⟨saved, store2, hcr⟩ := createMessage_ok st.store now v
    (insertMessageSchemaCheck_content_ok roomId C content (jsOrStr mt "message")
      v hschema)
  have hspec := createMessage_spec st.store now v saved store2 hcr
  refine ⟨saved, store2, hcr, ?_, hspec.2.2.2.2.2.2.1⟩
  have hch2 : getCharacter store2 C = some ch := by
    unfold getCharacter at hch ⊢
    rw [hspec.2.2.2.2.2.2.2.1]
    exact hch
  simp only [handleWsMessage, hconn, hcid]
  rw [if_neg h0, hschema]
  dsimp only
  rw [hcr]
  dsimp only
  rw [hch2]

/-- Witness for C3 amended at a concrete two-client state with an existing
character; the payload roomId 1 plays no role in the fan-out. -/
theorem c3_witness :
    ∃ saved store2,
      createMessage wsLive.store 0 ⟨1, 1, "hello", "message"⟩ = some (saved, store2) ∧
      handleWsMessage wsLive 0 (.chatMessage (some 1) (some 3) (some "hello") none) 0
        = ({ wsLive with store := store2 },
           (wsLive.clients.filter (fun p => p.2)).map
             (fun cl => (cl.1, .newMessage saved
               { firstName := "Jan", middleName := none, lastName := "Novak" }))) ∧
      store2.messages = wsLive.store.messages ++ [saved] :=
  c3_amended_broadcast wsLive 0 ⟨some 9, some 1⟩ 1 (some 1) (some 3)
    (some "hello") none 0 ⟨1, 1, "hello", "message"⟩
    { firstName := "Jan", middleName := none, lastName := "Novak" }
    rfl rfl (by decide) rfl rfl

/-! C7: room export. -/

theorem projectAll_spec (s : Store) (l : List Message) (es : List ExportEntry)
    (h : projectAll s l = some es) :
    es.length = l.length ∧
    ∀ i (hi : i < es.length) (hl : i < l.length),
      projectExport s (l.get ⟨i, hl⟩) = some (es.get ⟨i, hi⟩) := by
  induction l generalizing es with
  | nil =>
    unfold projectAll at h
    injection h with h2
    subst h2
    exact ⟨rfl, fun i hi hl => absurd hl (by simp)⟩
  | cons m rest ih =>
    unfold projectAll at h
    cases hpe : projectExport s m with
    | none => rw [hpe] at h; cases h
    | some e =>
      rw [hpe] at h
      cases hpa : projectAll s rest with
      | none => rw [hpa] at h; cases h
      | some es2 =>
        rw [hpa] at h
        dsimp only at h
        injection h with h2
        subst h2
        obtain ⟨hlen, hget⟩ := ih es2 hpa
        refine ⟨by simp [hlen], ?_⟩
        intro i hi hl
        cases i with
        | zero => exact hpe
        | succ j =>
          exact hget j (by simpa using hi) (by simpa using hl)

/-- A message list sorted by strictly ascending store-assigned id. -/
def SortedByIdAsc (l : List Message) : Prop :=
  l.Pairwise (fun a b => a.id < b.id)

/-- The store append path preserves the ascending-id invariant. -/
theorem createMessage_preserves_sorted (s : Store) (now : Nat) (d : MessageData)
    (m : Message) (s2 : Store) (hs : SortedByIdAsc s.messages)
    (hid : ∀ x ∈ s.messages, x.id < s.nextId)
    (h : createMessage s now d = some (m, s2)) :
    SortedByIdAsc s2.messages ∧ ∀ x ∈ s2.messages, x.id < s2.nextId := by
  have hspec := createMessage_spec s now d m s2 h
  rw [hspec.2.2.2.2.2.2.1, hspec.2.2.2.2.2.2.2.2]
  constructor
  · rw [SortedByIdAsc, List.pairwise_append]
    refine ⟨hs, List.pairwise_singleton _ _, ?_⟩
    intro a ha b hb
    rw [List.mem_singleton] at hb
    subst hb
    rw [hspec.2.2.2.2.1]
    exact hid a ha
  · intro x hx
    rw [List.mem_append, List.mem_singleton] at hx
    rcases hx with hx | hx
    · exact Nat.lt_succ_of_lt (hid x hx)
    · subst hx
      rw [hspec.2.2.2.2.1]
      exact Nat.lt_succ_self _

/-- Paginated reads return descending ids under the store invariant. -/
theorem getMessagesByRoom_sorted (s : Store) (roomId : Int) (limit offset : Nat)
    (hs : SortedByIdAsc s.messages) :
    (getMessagesByRoom s roomId limit offset).Pairwise (fun a b => b.id < a.id) := by
  unfold getMessagesByRoom
  apply List.Pairwise.sublist (List.take_sublist _ _)
  apply List.Pairwise.sublist (List.drop_sublist _ _)
  rw [List.pairwise_reverse]
  exact List.Pairwise.filter _ hs

/-- C7: whenever the export succeeds it returns one projected entry per read
message; the read is capped at the 1000 most recent messages of the room, the
reads are in newest-first (descending id) order under the store invariant,
and every entry carries the timestamp, full character name, content and type
of its message. -/
theorem c7_export_projection (s : Store) (roomId : Int)
    (entries : List ExportEntry) (h : exportRoom s roomId = some entries) :
    entries.length = (getMessagesByRoom s roomId 1000 0).length ∧
    (getMessagesByRoom s roomId 1000 0).length
        = min (s.messages.filter (fun m => m.roomId == roomId)).length 1000 ∧
    (SortedByIdAsc s.messages →
      (getMessagesByRoom s roomId 1000 0).Pairwise (fun a b => b.id < a.id)) ∧
    ∀ i (hi : i < entries.length)
        (hl : i < (getMessagesByRoom s roomId 1000 0).length),
      ∃ c, getCharacter s
            ((getMessagesByRoom s roomId 1000 0).get ⟨i, hl⟩).characterId = some c ∧
        entries.get ⟨i, hi⟩ =
          { timestamp := ((getMessagesByRoom s roomId 1000 0).get ⟨i, hl⟩).createdAt,
            character := characterFullName c,
            message := ((getMessagesByRoom s roomId 1000 0).get ⟨i, hl⟩).content,
            type := ((getMessagesByRoom s roomId 1000 0).get ⟨i, hl⟩).messageType } := by
  obtain ⟨hlen, hget⟩ := projectAll_spec s _ entries h
  refine ⟨hlen, ?_, fun hs => getMessagesByRoom_sorted s roomId 1000 0 hs, ?_⟩
  · unfold getMessagesByRoom
    rw [List.drop_zero, List.length_take, List.length_reverse, Nat.min_comm]
  · intro i hi hl
    have hp := hget i hi hl
    unfold projectExport at hp
    cases hch : getCharacter s
        ((getMessagesByRoom s roomId 1000 0).get ⟨i, hl⟩).characterId with
    | none => rw [hch] at hp; cases hp
    | some c =>
      rw [hch] at hp
      simp only [Option.map_some'] at hp
      injection hp with h2
      exact ⟨c, rfl, h2.symm⟩

/-- Character row used by the export witness. -/
def char7 : Character :=
  { firstName := "Ada", middleName := some "B", lastName := "Cole" }

/-- A store whose room 4 holds exactly three messages by character 7. -/
def sExport : Store :=
  { messages :=
      [ { id := 1, roomId := 4, characterId := 7, content := "one",
          messageType := "text", createdAt := 11, archivedAt := none },
        { id := 2, roomId := 4, characterId := 7, content := "two",
          messageType := "text", createdAt := 12, archivedAt := none },
        { id := 3, roomId := 4, characterId := 7, content := "three",
          messageType := "message", createdAt := 13, archivedAt := none } ],
    characters := [(7, char7)],
    nextId := 4 }

/-- The three projected entries of the export of room 4, newest first. -/
def c7Entries : List ExportEntry :=
  [ { timestamp := 13, character := "Ada B Cole", message := "three",
      type := "message" },
    { timestamp := 12, character := "Ada B Cole", message := "two",
      type := "text" },
    { timestamp := 11, character := "Ada B Cole", message := "one",
      type := "text" } ]

/-- Witness for C7: the room with 3 messages exports exactly 3 entries in
newest-first order with all fields populated. -/
theorem c7_witness :
    exportRoom sExport 4 = some c7Entries ∧
    c7Entries.length = (getMessagesByRoom sExport 4 1000 0).length ∧
    (getMessagesByRoom sExport 4 1000 0).length = 3 :=
  ⟨by decide, (c7_export_projection sExport 4 c7Entries (by decide)).1, by decide⟩

end Chat
